import Mathlib

/-!
Verification of the AviFlux weather-aggregation and flight-risk scoring core.

Each definition below is a shallow embedding of a function of the Python
sources under `src/backend/`.  Machine floats are modelled as exact
rationals, Python dictionaries as structures with `Option` fields, raised
exceptions as `Except`/`Option` results, and the unparsed network layer as
explicit function parameters.  The theorems at the end of the file settle
the frozen claims C1..C10 about this code.
-/

/-- Models Python `float(s)` restricted to plain decimal literals
(optional leading minus, digits, optional fractional part).  Any other
string yields `none`, matching a `ValueError` in the source. -/
def digitsToNat? (cs : List Char) : Option Nat :=
  cs.foldl
    (fun acc c =>
      match acc with
      | none => none
      | some n => if c.isDigit then some (n * 10 + (c.toNat - 48)) else none)
    (some 0)

def parseFloat (s : String) : Option ℚ :=
  let cs := s.data
  let signed : Bool × List Char :=
    match cs with
    | '-' :: t => (true, t)
    | _ => (false, cs)
  let neg := signed.1
  let cs2 := signed.2
  let ip := cs2.takeWhile (fun c => c ≠ '.')
  let rest := cs2.dropWhile (fun c => c ≠ '.')
  let build : ℚ → Option ℚ := fun v => some (if neg then -v else v)
  match rest with
  | [] =>
    if ip.isEmpty then none
    else
      match digitsToNat? ip with
      | some n => build (n : ℚ)
      | none => none
  | _ :: frac =>
    if frac.any (fun c => c = '.') then none
    else if ip.isEmpty && frac.isEmpty then none
    else
      match digitsToNat? ip, digitsToNat? frac with
      | some n, some f => build ((n : ℚ) + (f : ℚ) / (10 : ℚ) ^ frac.length)
      | _, _ => none

/-- Python `int(x)` on a float: truncation toward zero. -/
def pyTrunc (q : ℚ) : ℤ :=
  if 0 ≤ q then ⌊q⌋ else -⌊-q⌋

/-- Python `round(x)` (banker's rounding, half to even). -/
def roundHalfEven (x : ℚ) : ℤ :=
  let f := ⌊x⌋
  let r := x - (f : ℚ)
  if r < 1 / 2 then f
  else if 1 / 2 < r then f + 1
  else if f % 2 = 0 then f else f + 1

/-- Python `round(x, d)` on our rational floats. -/
def pyRound (d : ℕ) (x : ℚ) : ℚ :=
  ((roundHalfEven (x * (10 : ℚ) ^ d) : ℚ)) / (10 : ℚ) ^ d

/-!
The METAR parsers work on ASCII provider strings with Python's string
operations.  They are modelled structurally on the character list of the
string (so that concrete runs reduce inside Lean's kernel), with the same
semantics as the Python operations they stand for.
-/

/-- Python `c in s` for a single character. -/
def strContainsChar (s : String) (c : Char) : Bool :=
  s.data.any (fun x => x = c)

/-- One fuel-metered step list of Python `str.replace`: scan left to
right, replacing non-overlapping occurrences of `needle`. -/
def replaceFuel (needle repl : List Char) : ℕ → List Char → List Char
  | 0, l => l
  | _ + 1, [] => []
  | fuel + 1, c :: rest =>
    if needle ≠ [] ∧ needle.isPrefixOf (c :: rest) then
      repl ++ replaceFuel needle repl fuel ((c :: rest).drop needle.length)
    else
      c :: replaceFuel needle repl fuel rest

/-- Python `s.replace(needle, repl)` (for a non-empty needle). -/
def strReplace (s needle repl : String) : String :=
  ⟨replaceFuel needle.data repl.data s.data.length s.data⟩

/-- ASCII lower-casing of one character (Python `str.lower` on the METAR
field alphabet). -/
def charToLower (c : Char) : Char :=
  if 65 ≤ c.toNat ∧ c.toNat ≤ 90 then Char.ofNat (c.toNat + 32) else c

/-- ASCII upper-casing of one character. -/
def charToUpper (c : Char) : Char :=
  if 97 ≤ c.toNat ∧ c.toNat ≤ 122 then Char.ofNat (c.toNat - 32) else c

def strToLower (s : String) : String := ⟨s.data.map charToLower⟩

def strToUpper (s : String) : String := ⟨s.data.map charToUpper⟩

def listContainsSub (needle : List Char) : List Char → Bool
  | [] => needle.isEmpty
  | c :: rest => needle.isPrefixOf (c :: rest) || listContainsSub needle rest

/-- Python `needle in haystack` for strings (substring containment). -/
def strContainsSub (hay needle : String) : Bool :=
  listContainsSub needle.data hay.data

/-- Python `s.startswith(p)`. -/
def strStartsWith (s p : String) : Bool :=
  p.data.isPrefixOf s.data

/-!
## Risk scoring engine
`UltimateAviationWeatherSystem.calculate_comprehensive_risk_score`,
`_classify_risk` and `_get_flight_recommendation`
(src/backend/ultimate_aviation_system.py, lines 901-998).

The `weather_data` dictionary is embedded as `RiskInput`.  Numeric fields
are rationals (the claims quantify over numeric inputs; an unparsable
field leaves its risk contribution at 0 exactly as a value of 0 kt /
10 mi / 30 inHg does, so nothing is lost).  `ml_predictions` is `some
(turbulence_risk, icing_risk)` for a non-empty dictionary with those
(defaulted-to-0) values, `none` for an absent or empty one.
`historical_context` is `some avg` for a non-empty dictionary whose
`avg_temperature` value is `avg` (`none` inside when the key is missing).
Python truthiness of floats (`if curr and hist`) is modelled as `≠ 0`.
-/

structure RiskInput where
  wind_speed_knots : ℚ
  visibility_statute_miles : ℚ
  flight_category : String
  barometric_pressure_inhg : ℚ
  ml_predictions : Option (ℚ × ℚ)
  historical_context : Option (Option ℚ)
  temperature_celsius : Option ℚ
deriving Repr

def wind_risk (w : ℚ) : ℚ :=
  if 25 < w then 30 else if 15 < w then 15 else 0

def visibility_risk (v : ℚ) : ℚ :=
  if v < 3 then 25 else if v < 5 then 10 else 0

def weather_phenomena_risk (cat : String) : ℚ :=
  if cat = "LIFR" then 25
  else if cat = "IFR" then 15
  else if cat = "MVFR" then 8
  else 0

def pressure_risk (p : ℚ) : ℚ :=
  if p < 29 ∨ 31 < p then 10 else 0

def ml_risk (ml : Option (ℚ × ℚ)) : ℚ :=
  match ml with
  | none => 0
  | some (turb, ice) => min (turb * 10 + ice * 10) 20

def historical_risk (hist : Option (Option ℚ)) (curr : Option ℚ) : ℚ :=
  match hist with
  | none => 0
  | some h =>
    match curr, h with
    | some ct, some ht =>
      if ct ≠ 0 ∧ ht ≠ 0 ∧ 20 < |ct - ht| then 5 else 0
    | _, _ => 0

/-- Sum of the `risk_factors` dictionary: a constant `base_risk` of 20
plus the six weighted factors, capped at 100. -/
def total_risk_score (d : RiskInput) : ℚ :=
  min
    (20 + wind_risk d.wind_speed_knots
       + visibility_risk d.visibility_statute_miles
       + weather_phenomena_risk d.flight_category
       + pressure_risk d.barometric_pressure_inhg
       + ml_risk d.ml_predictions
       + historical_risk d.historical_context d.temperature_celsius)
    100

/-- `_classify_risk` (ultimate_aviation_system.py lines 980-989). -/
def classify_risk (risk_score : ℚ) : String :=
  if risk_score ≤ 30 then "LOW_RISK"
  else if risk_score ≤ 50 then "MODERATE_RISK"
  else if risk_score ≤ 70 then "HIGH_RISK"
  else "EXTREME_RISK"

/-- `_get_flight_recommendation` (ultimate_aviation_system.py lines 991-1000). -/
def get_flight_recommendation (risk_score : ℚ) : String :=
  if risk_score ≤ 30 then "CLEARED FOR TAKEOFF"
  else if risk_score ≤ 50 then "CAUTION ADVISED"
  else if risk_score ≤ 70 then "DELAY RECOMMENDED"
  else "DO NOT FLY"

/-- An input with calm wind, 10 mi visibility, VFR, standard pressure and
no ML or historical enrichment. -/
def idealConditions : RiskInput :=
  { wind_speed_knots := 0
    visibility_statute_miles := 10
    flight_category := "VFR"
    barometric_pressure_inhg := 30
    ml_predictions := none
    historical_context := none
    temperature_celsius := none }

/-- Hypothesis of C10: the ML risk values, when present, are non-negative. -/
def MlNonneg (d : RiskInput) : Prop :=
  match d.ml_predictions with
  | none => True
  | some (turb, ice) => 0 ≤ turb ∧ 0 ≤ ice

/-!
## METAR field parsing
Two implementations exist in the source and claim C6 cites both.

`FlightSafetyAssessment._process_metar_data`
(src/backend/flight_safety_system.py lines 685-723): processes one raw
METAR record; a `ValueError` escaping it is modelled as `Except.error`.

`UltimateAviationWeatherSystem._parse_metar_data`
(src/backend/ultimate_aviation_system.py lines 283-375): everything runs
inside an outer `try` whose handler returns the empty dictionary, modelled
as an `Option` result (`none` = `{}`).

Raw JSON field values are modelled as their string forms (`str(raw)` in
the source is the identity on them); a missing key is `none`.
-/

structure MetarRecord where
  visib : Option String := none
  wspd : Option String := none
  wdir : Option String := none
  temp : Option String := none
  dewp : Option String := none
  altim : Option String := none
  wxString : Option String := none
  fltcat : Option String := none
deriving Repr

structure ProcessedMetar where
  temperature_celsius : ℚ
  wind_speed_knots : ℤ
  wind_direction_degrees : ℤ
  visibility_statute_miles : ℚ
  barometric_pressure_inhg : ℚ
  weather_phenomena : String
  flight_category : String
deriving Repr, DecidableEq

/-- Visibility block of `_process_metar_data`: `'+' in raw` strips every
`'+'` and parses (an unparsable remainder raises `ValueError`);
`"unlimited"/"unltd"` (case-insensitive) gives 10.0; otherwise a guarded
`float` with default 10.0. -/
def process_visibility_value (visibility_raw : String) : Except String ℚ :=
  if strContainsChar visibility_raw '+' then
    match parseFloat (strReplace visibility_raw "+" "") with
    | some v => Except.ok v
    | none => Except.error "ValueError: could not convert string to float"
  else if strToLower visibility_raw = "unlimited" ∨ strToLower visibility_raw = "unltd" then
    Except.ok 10
  else
    Except.ok ((parseFloat visibility_raw).getD 10)

/-- Wind-speed block of `_process_metar_data`:
`int(float(str(raw).replace('+','')))` with catch-all default 10. -/
def process_wind_speed_value (raw : String) : ℤ :=
  match parseFloat (strReplace raw "+" "") with
  | some v => pyTrunc v
  | none => 10

/-- Wind-direction block of `_process_metar_data`:
`int(float(str(raw).replace('VRB','270')))` with catch-all default 270. -/
def process_wind_dir_value (raw : String) : ℤ :=
  match parseFloat (strReplace raw "VRB" "270") with
  | some v => pyTrunc v
  | none => 270

/-- The unguarded `float(metar_record.get(key, default))` used for `temp`
and `altim` in the result dictionary of `_process_metar_data`: the default
applies only when the key is missing; an unparsable present value raises. -/
def process_float_field (v : Option String) (dflt : ℚ) : Except String ℚ :=
  match v with
  | none => Except.ok dflt
  | some s =>
    match parseFloat s with
    | some q => Except.ok q
    | none => Except.error "ValueError: could not convert string to float"

/-- `FlightSafetyAssessment._process_metar_data`.  The `do` order follows
the evaluation order of the source: visibility block, wind blocks, then
the dictionary literal whose `float(...)` calls on `temp` and `altim` run
last. -/
def process_metar_data (r : MetarRecord) : Except String ProcessedMetar := do
  let visibility_value ← process_visibility_value (r.visib.getD "10.0")
  let wind_speed_value := process_wind_speed_value (r.wspd.getD "10")
  let wind_dir_value := process_wind_dir_value (r.wdir.getD "270")
  let temperature ← process_float_field r.temp 15
  let pressure ← process_float_field r.altim (2992 / 100)
  pure
    { temperature_celsius := temperature
      wind_speed_knots := wind_speed_value
      wind_direction_degrees := wind_dir_value
      visibility_statute_miles := visibility_value
      barometric_pressure_inhg := pressure
      weather_phenomena := r.wxString.getD ""
      flight_category := r.fltcat.getD "VFR" }

structure ParsedMetar where
  temperature_celsius : ℚ
  dewpoint_celsius : ℚ
  wind_direction_degrees : ℚ
  wind_speed_knots : ℚ
  visibility_statute_miles : ℚ
  barometric_pressure_inhg : ℚ
  flight_category : String
deriving Repr, DecidableEq

/-- The guarded per-field conversion of `_parse_metar_data`:
`float(x) if x is not None and x != '' else default` inside a
`try/except` substituting the same default. -/
def parse_field_default (v : Option String) (dflt : ℚ) : ℚ :=
  match v with
  | none => dflt
  | some s => if s = "" then dflt else (parseFloat s).getD dflt

/-- The visibility block of `_parse_metar_data`: `None`/empty → 10.0;
a string with `+` or (upper-cased) `SM` is stripped and parsed with any
failure escaping to the outer handler (`none`); otherwise a guarded
`float` with default 10.0. -/
def parse_visibility_value (v : Option String) : Option ℚ :=
  match v with
  | none => some 10
  | some s =>
    if s = "" then some 10
    else if strContainsChar s '+' then parseFloat (strReplace s "+" "")
    else if strContainsSub (strToUpper s) "SM" then parseFloat (strReplace (strToUpper s) "SM" "")
    else some ((parseFloat s).getD 10)

/-- `UltimateAviationWeatherSystem._parse_metar_data`.  Per-field
`try/except` blocks substitute the per-field default; the only raise that
reaches the outer handler is a failing `float(...)` on a visibility string
containing `+` or `SM`, in which case the whole record becomes `{}`
(`none` here).  The trailing unit conversions of the source never raise on
rationals and only add derived display fields, so they are not re-modelled. -/
def parse_metar_data (r : MetarRecord) : Option ParsedMetar :=
  let temp := parse_field_default r.temp 15
  let wind_speed := parse_field_default r.wspd 5
  let wind_dir := parse_field_default r.wdir 270
  let pressure := parse_field_default r.altim 30
  match parse_visibility_value r.visib with
  | none => none
  | some visibility =>
    let dewpoint := parse_field_default r.dewp (temp - 5)
    some
      { temperature_celsius := temp
        dewpoint_celsius := dewpoint
        wind_direction_degrees := wind_dir
        wind_speed_knots := wind_speed
        visibility_statute_miles := visibility
        barometric_pressure_inhg := pressure
        flight_category := r.fltcat.getD "VFR" }

/-!
## Airport info and fallback weather synthesis
`UltimateAviationWeatherSystem._get_airport_info` (lines 452-484) and
`_get_fallback_weather_data` (lines 485-524) of
src/backend/ultimate_aviation_system.py.

The `airports.csv` dataframe is a run-time input and is modelled as an
association list passed in explicitly.
-/

structure UAirport where
  latitude_deg : ℚ
  longitude_deg : ℚ
  elevation_ft : Option ℚ
deriving Repr, DecidableEq

/-- The hard-coded `fallback_coords` dictionary inside `_get_airport_info`. -/
def ult_fallback_coords (code : String) : Option UAirport :=
  if code = "KJFK" then some ⟨40639 / 1000, -737789 / 10000, some 13⟩
  else if code = "KLAX" then some ⟨339425 / 10000, -1184081 / 10000, some 125⟩
  else if code = "KORD" then some ⟨419786 / 10000, -879048 / 10000, some 672⟩
  else if code = "KDEN" then some ⟨398617 / 10000, -1046731 / 10000, some 5431⟩
  else if code = "KSEA" then some ⟨474502 / 10000, -1223088 / 10000, some 131⟩
  else if code = "VIDP" then some ⟨285562 / 10000, 771 / 10, some 777⟩
  else if code = "VAPO" then some ⟨190896 / 10000, 728656 / 10000, some 39⟩
  else if code = "VABB" then some ⟨190896 / 10000, 728656 / 10000, some 39⟩
  else if code = "VECC" then some ⟨226547 / 10000, 884467 / 10000, some 16⟩
  else if code = "VOBL" then some ⟨131986 / 10000, 777066 / 10000, some 3000⟩
  else if code = "EGLL" then some ⟨5147 / 100, -4543 / 10000, some 83⟩
  else if code = "LFPG" then some ⟨490128 / 10000, 255 / 100, some 392⟩
  else if code = "EDDF" then some ⟨500264 / 10000, 85431 / 10000, some 364⟩
  else if code = "WSSS" then some ⟨13644 / 10000, 1039915 / 10000, some 22⟩
  else if code = "RJTT" then some ⟨357647 / 10000, 1403864 / 10000, some 35⟩
  else none

/-- `_get_airport_info`: dataframe row when present, else the hard-coded
fallback table, else the default `{latitude_deg: 40.0, longitude_deg: -100.0}`
(whose dictionary has no `elevation_ft` key). -/
def ult_get_airport_info (db : List (String × UAirport)) (code : String) : UAirport :=
  match db.find? (fun p => p.1 = code) with
  | some p => p.2
  | none =>
    match ult_fallback_coords code with
    | some a => a
    | none => ⟨40, -100, none⟩

/-- Numeric part of `_get_fallback_weather_data`: the synthesized
observation substituted when the primary METAR source fails.  Every field
of the returned dictionary is present (non-null). -/
structure FallbackWeather where
  temperature_celsius : ℚ
  dewpoint_celsius : ℚ
  wind_direction_degrees : ℚ
  wind_speed_knots : ℚ
  visibility_statute_miles : ℚ
  barometric_pressure_inhg : ℚ
  flight_category : String
deriving Repr, DecidableEq

def get_fallback_weather_data (db : List (String × UAirport)) (airport_code : String) :
    FallbackWeather :=
  let info := ult_get_airport_info db airport_code
  let lat := info.latitude_deg
  let elevation := info.elevation_ft.getD 1000
  let base_temp : ℚ :=
    if strStartsWith airport_code "VA" then 28 - |lat - 23| * (6 / 10) - (elevation / 1000) * 2
    else if strStartsWith airport_code "VID" then 26 - (elevation / 1000) * 2
    else if strStartsWith airport_code "EG" then 12 - |lat - 53| * (4 / 10)
    else if strStartsWith airport_code "LF" then 15 - |lat - 48| * (5 / 10)
    else if strStartsWith airport_code "ED" then 10 - |lat - 51| * (5 / 10)
    else 25 - |lat - 30| * (5 / 10) - (elevation / 1000) * 2
  { temperature_celsius := pyRound 1 base_temp
    dewpoint_celsius := pyRound 1 (base_temp - 8)
    wind_direction_degrees := 270
    wind_speed_knots := 8
    visibility_statute_miles := 10
    barometric_pressure_inhg := pyRound 2 (30 - (elevation / 1000) * (1 / 10))
    flight_category := "VFR" }

/-!
## Multi-source aggregation
`UltimateAviationWeatherSystem.get_multi_source_weather`
(src/backend/ultimate_aviation_system.py lines 171-281), single-airport
path.  Network adapters are modelled by their outcomes:

* `metarOut = some p` — the METAR fetch succeeded, parsed to a non-empty
  record whose `temperature_celsius` is non-null (the guard at line 297);
  any failed fetch, empty response, or empty parse result is `none`.
* `tafOk`, `pirepOk`, `sigmetOk` — whether those supplementary fetches
  succeeded; their parsed fields never overlap the numeric
  temperature/visibility/pressure fields, so only their source tags are
  tracked here.
* `histAvailable` — `airport_code in self.weather_patterns`.
* `mlNonempty` — `_generate_ml_predictions` returned a non-empty dict.
-/

structure WeatherSnapshot where
  airport_code : String
  temperature_celsius : Option ℚ
  dewpoint_celsius : Option ℚ
  wind_direction_degrees : Option ℚ
  wind_speed_knots : Option ℚ
  visibility_statute_miles : Option ℚ
  barometric_pressure_inhg : Option ℚ
  flight_category : Option String
  sources : List String
deriving Repr

def get_multi_source_weather (db : List (String × UAirport))
    (metarOut : Option ParsedMetar) (tafOk pirepOk sigmetOk : Bool)
    (histAvailable mlNonempty : Bool) (airport_code : String) : WeatherSnapshot :=
  let base : WeatherSnapshot :=
    { airport_code := airport_code
      temperature_celsius := none
      dewpoint_celsius := none
      wind_direction_degrees := none
      wind_speed_knots := none
      visibility_statute_miles := none
      barometric_pressure_inhg := none
      flight_category := none
      sources := [] }
  let afterMetar : WeatherSnapshot :=
    match metarOut with
    | some p =>
      { base with
          temperature_celsius := some p.temperature_celsius
          dewpoint_celsius := some p.dewpoint_celsius
          wind_direction_degrees := some p.wind_direction_degrees
          wind_speed_knots := some p.wind_speed_knots
          visibility_statute_miles := some p.visibility_statute_miles
          barometric_pressure_inhg := some p.barometric_pressure_inhg
          flight_category := some p.flight_category
          sources := base.sources ++ ["METAR"] }
    | none =>
      let fb := get_fallback_weather_data db airport_code
      { base with
          temperature_celsius := some fb.temperature_celsius
          dewpoint_celsius := some fb.dewpoint_celsius
          wind_direction_degrees := some fb.wind_direction_degrees
          wind_speed_knots := some fb.wind_speed_knots
          visibility_statute_miles := some fb.visibility_statute_miles
          barometric_pressure_inhg := some fb.barometric_pressure_inhg
          flight_category := some fb.flight_category
          sources := base.sources ++ ["FALLBACK_METAR"] }
  let afterTaf :=
    { afterMetar with
        sources := afterMetar.sources ++ [if tafOk then "TAF" else "FALLBACK_TAF"] }
  let afterPirep :=
    { afterTaf with
        sources := afterTaf.sources ++ (if pirepOk then ["PIREP"] else []) }
  let afterSigmet :=
    { afterPirep with
        sources := afterPirep.sources ++ (if sigmetOk then ["SIGMET"] else []) }
  let afterHist :=
    { afterSigmet with
        sources := afterSigmet.sources ++ (if histAvailable then ["HISTORICAL"] else []) }
  { afterHist with
      sources := afterHist.sources ++ (if mlNonempty then ["ML_MODELS"] else []) }

/-!
## Route-level flight-parameter estimation
`UltimateAviationWeatherSystem._estimate_flight_parameters`
(src/backend/ultimate_aviation_system.py lines 1038-1076).  The Haversine
helper `_calculate_great_circle_distance` uses trigonometry, so it is
passed in as an abstract function `gcDist lat1 lon1 lat2 lon2`.  Because
`_get_airport_info` always returns a (possibly default) coordinate
dictionary, the `if dep_info and arr_info` test always takes the first
branch and the function always returns a result, never an error.
-/

structure FlightParams where
  distance_nm : ℚ
  estimated_speed_kts : ℚ
  duration_hours : ℚ
deriving Repr, DecidableEq

def estimate_flight_parameters (db : List (String × UAirport))
    (gcDist : ℚ → ℚ → ℚ → ℚ → ℚ) (departure arrival : String) : FlightParams :=
  let dep_info := ult_get_airport_info db departure
  let arr_info := ult_get_airport_info db arrival
  let estimated_distance :=
    gcDist dep_info.latitude_deg dep_info.longitude_deg
      arr_info.latitude_deg arr_info.longitude_deg
  let estimated_speed : ℚ :=
    if estimated_distance < 500 then 350
    else if estimated_distance < 1500 then 450
    else 500
  { distance_nm := pyRound 0 estimated_distance
    estimated_speed_kts := estimated_speed
    duration_hours := pyRound 1 (estimated_distance / estimated_speed) }

/-!
## Great-circle route service
`RouteService.calculate_great_circle_route` and
`RouteService.calculate_multi_leg_route`
(src/backend/services/route_service.py lines 22-148).

The pyproj geodesic kernel is abstract here: `npts a b n` is the list of
intermediate points returned by `geod.npts(..., npts=n)` and `inv a b` is
the forward distance in meters from `geod.inv`.  The airport database is
`coordsDb : String → Option (ℚ × ℚ)` (`get_coords`).  A raised
`ValueError` is an `Except.error` carrying the message.
-/

structure GCRoute where
  coordinates : List (ℚ × ℚ)
  distance_nm : ℚ
  distance_km : ℚ
  total_points : ℕ
deriving Repr, DecidableEq, Inhabited

def calculate_great_circle_route (coordsDb : String → Option (ℚ × ℚ))
    (npts : ℚ × ℚ → ℚ × ℚ → ℕ → List (ℚ × ℚ)) (inv : ℚ × ℚ → ℚ × ℚ → ℚ)
    (origin_icao destination_icao : String) (num_points : ℕ) :
    Except String GCRoute := do
  let origin_coords ←
    match coordsDb origin_icao with
    | some c => pure c
    | none => Except.error ("Origin airport " ++ origin_icao ++ " not found")
  let destination_coords ←
    match coordsDb destination_icao with
    | some c => pure c
    | none => Except.error ("Destination airport " ++ destination_icao ++ " not found")
  let path_coords := npts origin_coords destination_coords (num_points - 2)
  let all_coords := origin_coords :: (path_coords ++ [destination_coords])
  let distance_meters := inv origin_coords destination_coords
  pure
    { coordinates := all_coords
      distance_nm := distance_meters / 1852
      distance_km := distance_meters / 1000
      total_points := all_coords.length }

/-- The leg list built by the two loops at the top of
`calculate_multi_leg_route`: consecutive pairs, plus the closing
`(airports[-1], airports[0])` leg when `circular`. -/
def legsOf (airports : List String) (circular : Bool) : List (String × String) :=
  let base := airports.zip airports.tail
  match airports with
  | [] => base
  | a :: rest =>
    if circular then base ++ [((a :: rest).getLast (by simp), a)] else base

/-- The per-leg loop of `calculate_multi_leg_route`, propagating the first
`ValueError` exactly as the Python loop would. -/
def mapLegs (f : String × String → Except String GCRoute) :
    List (String × String) → Except String (List GCRoute)
  | [] => Except.ok []
  | l :: ls => do
    let s ← f l
    let ss ← mapLegs f ls
    pure (s :: ss)

/-- Coordinate merging: the first leg contributes all its points, every
later leg drops its duplicated leading point (`segment['coordinates'][1:]`). -/
def mergeLegCoords : List GCRoute → List (ℚ × ℚ)
  | [] => []
  | s :: rest => s.coordinates ++ rest.foldr (fun r acc => r.coordinates.drop 1 ++ acc) []

structure MultiLegRoute where
  coordinates : List (ℚ × ℚ)
  distance_km : ℚ
  distance_nm : ℚ
  total_points : ℕ
  segments : List GCRoute
deriving Repr, DecidableEq, Inhabited

def calculate_multi_leg_route (coordsDb : String → Option (ℚ × ℚ))
    (npts : ℚ × ℚ → ℚ × ℚ → ℕ → List (ℚ × ℚ)) (inv : ℚ × ℚ → ℚ × ℚ → ℚ)
    (airports : List String) (circular : Bool) (num_points_per_leg : ℕ) :
    Except String MultiLegRoute := do
  if airports.length < 2 then
    Except.error "At least two airports are required"
  else
    let legs := legsOf airports circular
    let segs ← mapLegs
      (fun l => calculate_great_circle_route coordsDb npts inv l.1 l.2 num_points_per_leg)
      legs
    let all_coords := mergeLegCoords segs
    let total_distance_meters :=
      segs.foldl (fun acc s => acc + s.distance_km * 1000) 0
    pure
      { coordinates := all_coords
        distance_km := total_distance_meters / 1000
        distance_nm := total_distance_meters / 1852
        total_points := all_coords.length
        segments := segs }

/-!
## Waypoint generation and altitude profile
`RealTimeFlightTracker._generate_flight_waypoints`
(src/backend/flight_safety_system.py lines 118-155).
-/

/-- The altitude-profile branch of `_generate_flight_waypoints`, as a
function of the progress fraction. -/
def waypoint_altitude (fraction : ℚ) : ℚ :=
  if fraction < 15 / 100 then 2000 + 35000 * fraction / (15 / 100)
  else if 85 / 100 < fraction then
    35000 - 33000 * ((fraction - 85 / 100) / (15 / 100))
  else 35000

def waypoint_phase (fraction : ℚ) : String :=
  if fraction < 15 / 100 then "climb"
  else if 85 / 100 < fraction then "descent"
  else "cruise"

structure Waypoint where
  sequence : ℕ
  latitude : ℚ
  longitude : ℚ
  altitude_feet : ℤ
  time_offset_minutes : ℤ
  phase : String
deriving Repr, DecidableEq

/-- `_generate_flight_waypoints` (latitude/longitude rounding to 4 places
reproduced with `pyRound`; `int(...)` with `pyTrunc`). -/
def generate_flight_waypoints (dep_coords arr_coords : ℚ × ℚ)
    (flight_time_minutes : ℚ) : List Waypoint :=
  let num_waypoints : ℕ := max 5 (pyTrunc (flight_time_minutes / 30)).toNat
  (List.range (num_waypoints + 1)).map fun (i : ℕ) =>
    let fraction : ℚ := (i : ℚ) / (num_waypoints : ℚ)
    let lat := dep_coords.1 + (arr_coords.1 - dep_coords.1) * fraction
    let lon := dep_coords.2 + (arr_coords.2 - dep_coords.2) * fraction
    { sequence := i
      latitude := pyRound 4 lat
      longitude := pyRound 4 lon
      altitude_feet := pyTrunc (waypoint_altitude fraction)
      time_offset_minutes := pyTrunc (fraction * flight_time_minutes)
      phase := waypoint_phase fraction }

/-!
## Nearest-airport resolution
Two distinct implementations:

* `FlightSafetyAssessment.find_nearest_airport`
  (src/backend/flight_safety_system.py lines 646-661): scans the whole
  airport database with Haversine `calculate_distance`, starting from
  `min_distance = inf` and `nearest_airport = 'KJFK'`, and returns the
  running nearest unconditionally — there is no distance cap.
* `RealTimeFlightTracker._find_nearest_airport` (lines 302-326): same
  scan over its own table, but starting from `nearest_airport = None` and
  returning `None` unless `min_distance < 500` km.

The trigonometric Haversine is abstracted as `dist p q` and the airport
table as an association list of `(code, (lat, lon))`.
-/

def nearest_fold_step (dist : ℚ × ℚ → ℚ × ℚ → ℚ) (p : ℚ × ℚ)
    (acc : Option ℚ × String) (a : String × (ℚ × ℚ)) : Option ℚ × String :=
  let d := dist p a.2
  match acc.1 with
  | none => (some d, a.1)
  | some m => if d < m then (some d, a.1) else acc

/-- `FlightSafetyAssessment.find_nearest_airport`: always returns a code;
the initial value `'KJFK'` is kept when the database is empty. -/
def find_nearest_airport (dist : ℚ × ℚ → ℚ × ℚ → ℚ)
    (db : List (String × (ℚ × ℚ))) (p : ℚ × ℚ) : String :=
  (db.foldl (nearest_fold_step dist p) (none, "KJFK")).2

def tracker_fold_step (dist : ℚ × ℚ → ℚ × ℚ → ℚ) (p : ℚ × ℚ)
    (acc : Option ℚ × Option String) (a : String × (ℚ × ℚ)) :
    Option ℚ × Option String :=
  let d := dist p a.2
  match acc.1 with
  | none => (some d, some a.1)
  | some m => if d < m then (some d, some a.1) else acc

/-- `RealTimeFlightTracker._find_nearest_airport`: `none` when nothing is
within 500 km (`float('inf') < 500` is false, so also for an empty table). -/
def tracker_find_nearest_airport (dist : ℚ × ℚ → ℚ × ℚ → ℚ)
    (db : List (String × (ℚ × ℚ))) (p : ℚ × ℚ) : Option String :=
  let acc := db.foldl (tracker_fold_step dist p) (none, none)
  match acc.1 with
  | some m => if m < 500 then acc.2 else none
  | none => none

/-!
## Route weather analysis
`FlightSafetyAssessment.analyze_route_weather`
(src/backend/flight_safety_system.py lines 1524-1599), with
`get_airport_coordinates` (lines 588-605) and `interpolate_position`
(lines 639-644).

Abstract inputs: `dist` (the Haversine of `calculate_distance`), `airDb`
(the airport database scanned by `find_nearest_airport`), and
`wx code` (the weather dictionary from `obtain_current_weather`, reduced
to the four fields the hazard rules read, with the source's `.get`
defaults already applied).  Hazard messages are recorded as structured
`(percent, kind)` pairs instead of the formatted f-strings; their number
and order are preserved.  `weather_conditions[i-1]` is an unguarded list
index in the source; an out-of-range access (only reachable when a
waypoint resolves to an empty-string code and is skipped) is modelled as
`none`, i.e. an escaping `IndexError`.
-/

/-- `get_airport_coordinates` of `FlightSafetyAssessment`: database hit,
else a small fallback table, else the default `[40.0, -74.0]` — it never
fails and never returns an empty list. -/
def fss_fallback_coords (code : String) : Option (ℚ × ℚ) :=
  if code = "KJFK" then some (406413 / 10000, -737781 / 10000)
  else if code = "KLAX" then some (339425 / 10000, -1184081 / 10000)
  else if code = "KORD" then some (419742 / 10000, -879073 / 10000)
  else if code = "KDEN" then some (398561 / 10000, -1046737 / 10000)
  else if code = "EGLL" then some (514700 / 10000, -4543 / 10000)
  else if code = "LFPG" then some (490097 / 10000, 25479 / 10000)
  else if code = "KIAH" then some (299902 / 10000, -953368 / 10000)
  else if code = "KMIA" then some (257959 / 10000, -802870 / 10000)
  else none

def fss_get_airport_coordinates (db : List (String × (ℚ × ℚ))) (code : String) : ℚ × ℚ :=
  match db.find? (fun p => p.1 = code) with
  | some p => p.2
  | none =>
    match fss_fallback_coords code with
    | some c => c
    | none => (40, -74)

/-- `interpolate_position`: linear interpolation by progress fraction. -/
def interpolate_position (s e : ℚ × ℚ) (progress : ℚ) : ℚ × ℚ :=
  (s.1 + (e.1 - s.1) * progress, s.2 + (e.2 - s.2) * progress)

structure RouteWx where
  visibility_statute_miles : ℚ
  wind_speed_knots : ℚ
  temperature_celsius : ℚ
  dewpoint_depression : ℚ
deriving Repr

structure RAState where
  conds : List RouteWx
  hazards : List (ℕ × String)
  icing_areas : List ℕ
  turbulence_areas : List ℕ
deriving Repr

structure RouteAnalysis where
  waypoints_analyzed : ℕ
  weather_hazards : List (ℕ × String)
  overall_conditions : String
  recommended_altitude : String
  turbulence_areas : List ℕ
  icing_areas : List ℕ
deriving Repr, Inhabited

/-- One iteration of the waypoint loop of `analyze_route_weather`. -/
def route_weather_step (dist : ℚ × ℚ → ℚ × ℚ → ℚ)
    (airDb : List (String × (ℚ × ℚ))) (wx : String → RouteWx)
    (dep_coords arr_coords : ℚ × ℚ) (st : RAState) (i : ℕ) : Option RAState :=
  let waypoint := interpolate_position dep_coords arr_coords ((i : ℚ) / 10)
  let nearest_airport := find_nearest_airport dist airDb waypoint
  if nearest_airport = "" then some st
  else
    let c := wx nearest_airport
    let conds := st.conds ++ [c]
    let hz1 :=
      if c.visibility_statute_miles < 3 then st.hazards ++ [(i * 10, "low visibility")]
      else st.hazards
    let hz2 :=
      if 40 < c.wind_speed_knots then hz1 ++ [(i * 10, "high winds")]
      else hz1
    let ic :=
      if c.temperature_celsius < 0 ∧ c.dewpoint_depression < 5 then
        st.icing_areas ++ [i * 10]
      else st.icing_areas
    if 25 < c.wind_speed_knots ∧ 0 < i then
      match conds.get? (i - 1) with
      | none => none
      | some prev =>
        let turb :=
          if 15 < |c.wind_speed_knots - prev.wind_speed_knots| then
            st.turbulence_areas ++ [i * 10]
          else st.turbulence_areas
        some { conds := conds, hazards := hz2, icing_areas := ic, turbulence_areas := turb }
    else
      some { conds := conds, hazards := hz2, icing_areas := ic, turbulence_areas := st.turbulence_areas }

/-- The final classification step of `analyze_route_weather` (lines
1581-1598): overall conditions from the hazard count, recommended
altitude from the icing/turbulence area lists (initial value `'FL350'`). -/
def finalize_route_analysis (st : RAState) : RouteAnalysis :=
  { waypoints_analyzed := 11
    weather_hazards := st.hazards
    overall_conditions :=
      if st.hazards.length = 0 then "FAVORABLE"
      else if st.hazards.length ≤ 2 then "CAUTION"
      else "HAZARDOUS"
    recommended_altitude :=
      if st.icing_areas ≠ [] then "FL410"
      else if st.turbulence_areas ≠ [] then "FL320"
      else "FL350"
    turbulence_areas := st.turbulence_areas
    icing_areas := st.icing_areas }

/-- `analyze_route_weather`.  `get_airport_coordinates` always returns a
two-element list, so the `if not dep_coords or not arr_coords` early
return of the source is unreachable and does not appear here. -/
def analyze_route_weather (dist : ℚ × ℚ → ℚ × ℚ → ℚ)
    (coordDb airDb : List (String × (ℚ × ℚ))) (wx : String → RouteWx)
    (departure_airport arrival_airport : String) : Option RouteAnalysis :=
  let dep_coords := fss_get_airport_coordinates coordDb departure_airport
  let arr_coords := fss_get_airport_coordinates coordDb arrival_airport
  ((List.range 11).foldlM
      (route_weather_step dist airDb wx dep_coords arr_coords)
      ⟨[], [], [], []⟩).map
    finalize_route_analysis

/-!
Reduction lemmas for the `Except` monad operations used by the embeddings.
-/

theorem except_bind_ok {ε α β : Type} (a : α) (f : α → Except ε β) :
    (Except.ok a >>= f : Except ε β) = f a := rfl

theorem except_bind_error {ε α β : Type} (e : ε) (f : α → Except ε β) :
    ((Except.error e : Except ε α) >>= f) = Except.error e := rfl

theorem except_map_ok {ε α β : Type} (f : α → β) (a : α) :
    (f <$> (Except.ok a : Except ε α)) = Except.ok (f a) := rfl

theorem except_map_error {ε α β : Type} (f : α → β) (e : ε) :
    (f <$> (Except.error e : Except ε α)) = (Except.error e : Except ε β) := rfl

theorem except_isOk_ok {ε α : Type} (a : α) : (Except.ok a : Except ε α).isOk = true := rfl

theorem except_isOk_error {ε α : Type} (e : ε) :
    (Except.error e : Except ε α).isOk = false := rfl

/-!
# Claims
-/

/-- C1, counterexample.  The spec's bands place 55 in MODERATE (31-55) and
80 in HIGH (56-80); the code's `_classify_risk` / `_get_flight_recommendation`
use the bands ≤30 / ≤50 / ≤70, so 55 classifies HIGH_RISK and 80 EXTREME_RISK. -/
theorem classify_risk_spec_bands_fail :
    classify_risk 55 = "HIGH_RISK" ∧ classify_risk 55 ≠ "MODERATE_RISK" ∧
    classify_risk 80 = "EXTREME_RISK" ∧ classify_risk 80 ≠ "HIGH_RISK" ∧
    get_flight_recommendation 55 = "DELAY RECOMMENDED" ∧
    get_flight_recommendation 80 = "DO NOT FLY" := by
  refine ⟨?_, ?_, ?_, ?_, ?_, ?_⟩
  · norm_num [classify_risk]
  · norm_num [classify_risk]
    decide
  · norm_num [classify_risk]
  · norm_num [classify_risk]
    decide
  · norm_num [get_flight_recommendation]
  · norm_num [get_flight_recommendation]

/-- C1, amended.  For every risk score s in [0,100] the classification and
recommendation follow the code's bands, inclusive on the lower bound:
s ≤ 30 LOW_RISK ("CLEARED FOR TAKEOFF"), 30 < s ≤ 50 MODERATE_RISK
("CAUTION ADVISED"), 50 < s ≤ 70 HIGH_RISK ("DELAY RECOMMENDED"),
s > 70 EXTREME_RISK ("DO NOT FLY"); in particular s = 55 classifies
HIGH_RISK and s = 80 classifies EXTREME_RISK. -/
theorem classify_risk_bands (s : ℚ) (h0 : 0 ≤ s) (h100 : s ≤ 100) :
    (s ≤ 30 → classify_risk s = "LOW_RISK" ∧
      get_flight_recommendation s = "CLEARED FOR TAKEOFF") ∧
    (30 < s → s ≤ 50 → classify_risk s = "MODERATE_RISK" ∧
      get_flight_recommendation s = "CAUTION ADVISED") ∧
    (50 < s → s ≤ 70 → classify_risk s = "HIGH_RISK" ∧
      get_flight_recommendation s = "DELAY RECOMMENDED") ∧
    (70 < s → classify_risk s = "EXTREME_RISK" ∧
      get_flight_recommendation s = "DO NOT FLY") := by
  refine ⟨fun h => ?_, fun h1 h2 => ?_, fun h1 h2 => ?_, fun h1 => ?_⟩ <;>
    simp only [classify_risk, get_flight_recommendation] <;>
    constructor <;>
    · split_ifs <;> first | rfl | linarith

/-- C1 witness: the amended bands evaluated at the concrete score 55. -/
theorem classify_risk_bands_witness :
    classify_risk 55 = "HIGH_RISK" ∧
    get_flight_recommendation 55 = "DELAY RECOMMENDED" :=
  (classify_risk_bands 55 (by norm_num) (by norm_num)).2.2.1 (by norm_num) (by norm_num)

/-- C2: evaluation of the altitude-profile code at its failing input.
The climb branch is `2000 + 35000 * f / 0.15`, so at f = 0.149 the
altitude is 110300/3 ≈ 36766.7 ft — above the 35000 ft cruise ceiling the
spec requires — and the profile drops back to 35000 ft at f = 0.15.  At
the generated waypoint fraction 1/7 (waypoint 1 of a 210-minute flight)
the stored integer altitude is 35333 ft.  The descent branch spans the
consistent 33000 ft (35000 at f = 0.85 down to 2000 at f = 1), confirming
that the climb's `35000` factor (rather than `33000`) is the slip. -/
theorem waypoint_altitude_overshoots_cruise :
    waypoint_altitude (149 / 1000) = 110300 / 3 ∧
    35000 < waypoint_altitude (149 / 1000) ∧
    waypoint_altitude (15 / 100) = 35000 ∧
    waypoint_altitude 0 = 2000 ∧
    waypoint_altitude 1 = 2000 ∧
    pyTrunc (waypoint_altitude (1 / 7)) = 35333 ∧
    waypoint_phase (149 / 1000) = "climb" := by
  refine ⟨?_, ?_, ?_, ?_, ?_, ?_, ?_⟩ <;>
    norm_num [waypoint_altitude, waypoint_phase, pyTrunc]

/-- C9: the total risk score is monotonically non-decreasing in wind
speed, all other fields held fixed. -/
theorem total_risk_monotone_in_wind (d : RiskInput) (w1 w2 : ℚ) (h : w1 ≤ w2) :
    total_risk_score { d with wind_speed_knots := w1 } ≤
      total_risk_score { d with wind_speed_knots := w2 } := by
  have hw : wind_risk w1 ≤ wind_risk w2 := by
    unfold wind_risk
    split_ifs <;> linarith
  unfold total_risk_score
  simp only
  exact min_le_min (by linarith) le_rfl

/-- C9 witness: monotonicity applied at 10 kt ≤ 40 kt on otherwise ideal
conditions. -/
theorem total_risk_monotone_in_wind_witness :
    total_risk_score { idealConditions with wind_speed_knots := 10 } ≤
      total_risk_score { idealConditions with wind_speed_knots := 40 } :=
  total_risk_monotone_in_wind idealConditions 10 40 (by norm_num)

/-- C10: with non-negative ML risk values the total risk score always lies
in [20,100] — the constant base risk of 20 is part of the sum and the sum
is capped at 100 — and ideal conditions score exactly 20, never 0. -/
theorem total_risk_score_bounds :
    (∀ d : RiskInput, MlNonneg d →
      20 ≤ total_risk_score d ∧ total_risk_score d ≤ 100) ∧
    total_risk_score idealConditions = 20 := by
  constructor
  · intro d hml
    have h1 : 0 ≤ wind_risk d.wind_speed_knots := by
      unfold wind_risk; split_ifs <;> norm_num
    have h2 : 0 ≤ visibility_risk d.visibility_statute_miles := by
      unfold visibility_risk; split_ifs <;> norm_num
    have h3 : 0 ≤ weather_phenomena_risk d.flight_category := by
      unfold weather_phenomena_risk; split_ifs <;> norm_num
    have h4 : 0 ≤ pressure_risk d.barometric_pressure_inhg := by
      unfold pressure_risk; split_ifs <;> norm_num
    have h5 : 0 ≤ ml_risk d.ml_predictions := by
      unfold MlNonneg at hml
      unfold ml_risk
      match hm : d.ml_predictions with
      | none => norm_num
      | some (turb, ice) =>
        rw [hm] at hml
        have ht := mul_nonneg hml.1 (by norm_num : (0 : ℚ) ≤ 10)
        have hi := mul_nonneg hml.2 (by norm_num : (0 : ℚ) ≤ 10)
        exact le_min (by linarith) (by norm_num)
    have h6 : 0 ≤ historical_risk d.historical_context d.temperature_celsius := by
      unfold historical_risk
      rcases d.historical_context with _ | h
      · norm_num
      · rcases d.temperature_celsius with _ | c <;> rcases h with _ | a <;>
          simp <;> split_ifs <;> norm_num
    unfold total_risk_score
    constructor
    · exact le_min (by linarith) (by norm_num)
    · exact min_le_right _ _
  · simp [total_risk_score, idealConditions, wind_risk, visibility_risk,
      weather_phenomena_risk, pressure_risk, ml_risk, historical_risk, min_def]
    norm_num

/-- C10 witness: the bounds applied at the concrete ideal-conditions input. -/
theorem total_risk_score_bounds_witness :
    20 ≤ total_risk_score idealConditions ∧ total_risk_score idealConditions ≤ 100 :=
  total_risk_score_bounds.1 idealConditions (by simp [MlNonneg, idealConditions])

/-- C6, counterexample.  The claimed uniform defaults fail: in
`_process_metar_data` an unparsable present temperature raises a
`ValueError` to the caller, and the pressure default is 29.92 inHg (the
`metar_record.get('altim', 29.92)` default), not 30.0; in
`_parse_metar_data` the wind-speed default is 5 kt, not 10 kt. -/
theorem metar_default_rules_fail :
    process_metar_data { temp := some "abc" } =
      Except.error "ValueError: could not convert string to float" ∧
    (process_metar_data {}).map ProcessedMetar.barometric_pressure_inhg =
      Except.ok (2992 / 100) ∧
    (2992 / 100 : ℚ) ≠ 30 ∧
    (parse_metar_data { wspd := some "abc" }).map ParsedMetar.wind_speed_knots =
      some (parse_field_default (some "abc") 5) ∧
    parse_field_default (some "abc") 5 = 5 ∧
    (5 : ℚ) ≠ 10 := by
  refine ⟨by rfl, by rfl, by norm_num, by rfl, by rfl, by norm_num⟩

/-- C6, amended.  Field parsing per implementation.  In
`_process_metar_data`: a visibility string containing `+` has every `+`
stripped and the remainder parsed, with an unparsable remainder raising to
the caller; `"unlimited"`/`"unltd"` parse to 10.0 miles; a plain
unparsable visibility defaults to 10.0; unparsable wind speed and
direction default to 10 kt and 270°; but temperature 15 °C and pressure
29.92 inHg are `dict.get` defaults applied only when the field is missing —
an unparsable present temperature or pressure raises a `ValueError` to the
caller.  In `_parse_metar_data`: missing, empty or unparsable fields
default per field to 15 °C, 5 kt, 270°, 30.0 inHg and 10.0 mi, and the one
failure mode (an unparsable `+`-visibility remainder) yields an empty
record rather than an exception. -/
theorem metar_field_parsing_amended :
    (∀ s v, strContainsChar s '+' = true → parseFloat (strReplace s "+" "") = some v →
      process_visibility_value s = Except.ok v) ∧
    (∀ s, strContainsChar s '+' = false →
      (strToLower s = "unlimited" ∨ strToLower s = "unltd") →
      process_visibility_value s = Except.ok 10) ∧
    (∀ s, strContainsChar s '+' = false →
      ¬(strToLower s = "unlimited" ∨ strToLower s = "unltd") →
      parseFloat s = none → process_visibility_value s = Except.ok 10) ∧
    (∀ s, strContainsChar s '+' = true → parseFloat (strReplace s "+" "") = none →
      process_visibility_value s =
        Except.error "ValueError: could not convert string to float") ∧
    (∀ s, parseFloat (strReplace s "+" "") = none → process_wind_speed_value s = 10) ∧
    (∀ s, parseFloat (strReplace s "VRB" "270") = none → process_wind_dir_value s = 270) ∧
    (∀ d : ℚ, process_float_field none d = Except.ok d) ∧
    (∀ s d, parseFloat s = none →
      process_float_field (some s) d =
        Except.error "ValueError: could not convert string to float") ∧
    (∀ r s, r.temp = some s → parseFloat s = none →
      (process_metar_data r).isOk = false) ∧
    (∀ r s, r.altim = some s → parseFloat s = none →
      (process_metar_data r).isOk = false) ∧
    (∀ r p, process_metar_data r = Except.ok p →
      p.wind_speed_knots = process_wind_speed_value (r.wspd.getD "10") ∧
      p.wind_direction_degrees = process_wind_dir_value (r.wdir.getD "270") ∧
      process_visibility_value (r.visib.getD "10.0") =
        Except.ok p.visibility_statute_miles ∧
      process_float_field r.temp 15 = Except.ok p.temperature_celsius ∧
      process_float_field r.altim (2992 / 100) =
        Except.ok p.barometric_pressure_inhg) ∧
    (∀ d : ℚ, parse_field_default none d = d) ∧
    (∀ d : ℚ, parse_field_default (some "") d = d) ∧
    (∀ s d, parseFloat s = none → parse_field_default (some s) d = d) ∧
    (∀ r q, parse_metar_data r = some q →
      q.temperature_celsius = parse_field_default r.temp 15 ∧
      q.wind_speed_knots = parse_field_default r.wspd 5 ∧
      q.wind_direction_degrees = parse_field_default r.wdir 270 ∧
      q.barometric_pressure_inhg = parse_field_default r.altim 30) ∧
    (∀ r s, r.visib = some s → s ≠ "" → strContainsChar s '+' = true →
      parseFloat (strReplace s "+" "") = none → parse_metar_data r = none) := by
  refine ⟨?_, ?_, ?_, ?_, ?_, ?_, ?_, ?_, ?_, ?_, ?_, ?_, ?_, ?_, ?_, ?_⟩
  · intro s v hc hp
    simp [process_visibility_value, hc, hp]
  · intro s hc hu
    simp [process_visibility_value, hc, hu]
  · intro s hc hu hp
    simp [process_visibility_value, hc, hu, hp]
  · intro s hc hp
    simp [process_visibility_value, hc, hp]
  · intro s hp
    simp [process_wind_speed_value, hp]
  · intro s hp
    simp [process_wind_dir_value, hp]
  · intro d
    rfl
  · intro s d hp
    simp [process_float_field, hp]
  · intro r s ht hp
    rcases hv : process_visibility_value (r.visib.getD "10.0") with e | v <;>
      simp [process_metar_data, hv, ht, process_float_field, hp,
        except_bind_ok, except_bind_error, except_map_ok, except_map_error,
        except_isOk_ok, except_isOk_error]
  · intro r s ha hp
    have ha2 : process_float_field r.altim (2992 / 100) =
        Except.error "ValueError: could not convert string to float" := by
      simp [process_float_field, ha, hp]
    rcases hv : process_visibility_value (r.visib.getD "10.0") with e | v
    · simp [process_metar_data, hv, except_bind_error, except_isOk_error]
    · rcases ht : process_float_field r.temp 15 with e2 | t <;>
        simp [process_metar_data, hv, ht, ha2,
          except_bind_ok, except_bind_error, except_map_ok, except_map_error,
          except_isOk_ok, except_isOk_error]
  · intro r p h
    rcases hv : process_visibility_value (r.visib.getD "10.0") with e | v <;>
      rcases ht : process_float_field r.temp 15 with e2 | t <;>
      rcases ha : process_float_field r.altim (2992 / 100) with e3 | a <;>
      simp [process_metar_data, hv, ht, ha,
        except_bind_ok, except_bind_error, except_map_ok, except_map_error] at h <;>
      subst h <;> simp
  · intro d
    rfl
  · intro d
    simp [parse_field_default]
  · intro s d hp
    simp [parse_field_default, hp]
  · intro r q h
    rcases hv : parse_visibility_value r.visib with _ | v <;>
      simp [parse_metar_data, hv] at h <;> subst h <;> simp
  · intro r s hvis hne hc hp
    simp [parse_metar_data, parse_visibility_value, hvis, hne, hc, hp]

/-- C6 witness: the amended visibility rule applied to the concrete raw
string "ab+", whose `+`-stripped remainder is unparsable and raises. -/
theorem metar_field_parsing_amended_witness :
    process_visibility_value "ab+" =
      Except.error "ValueError: could not convert string to float" :=
  metar_field_parsing_amended.2.2.2.1 "ab+" (by rfl) (by rfl)

/-- Every successful leg result of `calculate_great_circle_route` has
consistent distance fields (`distance_km·1000 = distance_nm·1852`, both
derived from the same meters), a recorded `total_points` equal to its
coordinate-list length, and at least one point (both endpoints are always
included). -/
theorem great_circle_route_ok_shape (coordsDb : String → Option (ℚ × ℚ))
    (npts : ℚ × ℚ → ℚ × ℚ → ℕ → List (ℚ × ℚ)) (inv : ℚ × ℚ → ℚ × ℚ → ℚ)
    (o d : String) (n : ℕ) (s : GCRoute)
    (h : calculate_great_circle_route coordsDb npts inv o d n = Except.ok s) :
    s.distance_km * 1000 = s.distance_nm * 1852 ∧
    s.coordinates.length = s.total_points ∧ 1 ≤ s.total_points := by
  rcases ho : coordsDb o with _ | c1 <;>
    rcases hd : coordsDb d with _ | c2 <;>
    simp [calculate_great_circle_route, ho, hd, pure, Except.pure,
      except_bind_ok, except_bind_error] at h <;>
    subst h <;>
    refine ⟨by ring, by simp, by simp⟩

theorem mapLegs_length (f : String × String → Except String GCRoute) :
    ∀ legs segs, mapLegs f legs = Except.ok segs → segs.length = legs.length := by
  intro legs
  induction legs with
  | nil =>
    intro segs h
    simp [mapLegs] at h
    subst h
    rfl
  | cons l ls ih =>
    intro segs h
    rcases hf : f l with e | b <;>
      rcases hm : mapLegs f ls with e2 | bs <;>
      simp [mapLegs, hf, hm, except_bind_ok, except_bind_error] at h
    subst h
    simp [ih bs hm]

theorem mapLegs_mem {P : GCRoute → Prop} (f : String × String → Except String GCRoute)
    (hf : ∀ l s, f l = Except.ok s → P s) :
    ∀ legs segs, mapLegs f legs = Except.ok segs → ∀ s ∈ segs, P s := by
  intro legs
  induction legs with
  | nil =>
    intro segs h
    simp [mapLegs] at h
    subst h
    simp
  | cons l ls ih =>
    intro segs h
    rcases hfl : f l with e | b <;>
      rcases hm : mapLegs f ls with e2 | bs <;>
      simp [mapLegs, hfl, hm, except_bind_ok, except_bind_error] at h
    subst h
    intro s hs
    rcases List.mem_cons.mp hs with rfl | hs2
    · exact hf l s hfl
    · exact ih bs hm s hs2

theorem sum_points_ge_length :
    ∀ l : List GCRoute, (∀ r ∈ l, 1 ≤ r.total_points) →
      l.length ≤ (l.map GCRoute.total_points).sum := by
  intro l
  induction l with
  | nil => intro _; simp
  | cons t ts ih =>
    intro hall
    have h1 := hall t (List.mem_cons_self t ts)
    have h2 := ih (fun r hr => hall r (List.mem_cons_of_mem t hr))
    simp only [List.length_cons, List.map_cons, List.sum_cons]
    omega

/-- Length of the `[1:]`-merged tail: every leg after the first
contributes its point count minus the dropped duplicate leading point. -/
theorem dropped_tail_length :
    ∀ rest : List GCRoute,
      (∀ r ∈ rest, r.coordinates.length = r.total_points ∧ 1 ≤ r.total_points) →
      (rest.foldr (fun r acc => r.coordinates.drop 1 ++ acc) []).length =
        (rest.map GCRoute.total_points).sum - rest.length := by
  intro rest
  induction rest with
  | nil => intro _; simp
  | cons t ts ih =>
    intro hall
    have h1 := hall t (List.mem_cons_self t ts)
    have h2 := ih (fun r hr => hall r (List.mem_cons_of_mem t hr))
    have h3 := sum_points_ge_length ts (fun r hr => (hall r (List.mem_cons_of_mem t hr)).2)
    simp only [List.foldr_cons, List.length_append, List.length_drop, h1.1, h2,
      List.map_cons, List.sum_cons, List.length_cons]
    omega

theorem mergeLegCoords_length (segs : List GCRoute)
    (hall : ∀ r ∈ segs, r.coordinates.length = r.total_points ∧ 1 ≤ r.total_points)
    (hne : segs ≠ []) :
    (mergeLegCoords segs).length =
      (segs.map GCRoute.total_points).sum - (segs.length - 1) := by
  rcases segs with _ | ⟨s, rest⟩
  · exact absurd rfl hne
  · have hs := hall s (List.mem_cons_self s rest)
    have htail := dropped_tail_length rest
      (fun r hr => hall r (List.mem_cons_of_mem s hr))
    have hge := sum_points_ge_length rest
      (fun r hr => (hall r (List.mem_cons_of_mem s hr)).2)
    simp only [mergeLegCoords, List.length_append, hs.1, htail,
      List.map_cons, List.sum_cons, List.length_cons]
    omega

theorem sum_map_nm_mul (l : List GCRoute) :
    (l.map (fun s => s.distance_nm * 1852)).sum =
      (l.map GCRoute.distance_nm).sum * 1852 := by
  induction l with
  | nil => simp
  | cons t ts ih =>
    simp only [List.map_cons, List.sum_cons, ih]
    ring

theorem foldl_distance_sum :
    ∀ (segs : List GCRoute) (a : ℚ),
      segs.foldl (fun acc s => acc + s.distance_km * 1000) a =
        a + (segs.map (fun s => s.distance_km * 1000)).sum := by
  intro segs
  induction segs with
  | nil => intro a; simp
  | cons t ts ih =>
    intro a
    simp only [List.foldl_cons, List.map_cons, List.sum_cons, ih]
    ring

/-- C3: a successful multi-leg route has exactly
(sum of per-leg point counts) − (number of legs − 1) points — the
duplicate leading point of every leg after the first is dropped — and its
total nautical-mile distance equals the sum of the legs' independently
computed nautical-mile distances. -/
theorem multi_leg_route_points_and_distance (coordsDb : String → Option (ℚ × ℚ))
    (npts : ℚ × ℚ → ℚ × ℚ → ℕ → List (ℚ × ℚ)) (inv : ℚ × ℚ → ℚ × ℚ → ℚ)
    (airports : List String) (circular : Bool) (nppl : ℕ) (R : MultiLegRoute)
    (hlen : 2 ≤ airports.length)
    (h : calculate_multi_leg_route coordsDb npts inv airports circular nppl =
      Except.ok R) :
    R.total_points = (R.segments.map GCRoute.total_points).sum -
      (R.segments.length - 1) ∧
    R.distance_nm = (R.segments.map GCRoute.distance_nm).sum := by
  have hnotlt : ¬ airports.length < 2 := by omega
  rcases hm : mapLegs
      (fun l => calculate_great_circle_route coordsDb npts inv l.1 l.2 nppl)
      (legsOf airports circular) with e | segs
  · simp [calculate_multi_leg_route, hnotlt, hm, except_bind_error] at h
  · simp only [calculate_multi_leg_route, hnotlt, if_false, hm,
      except_bind_ok, pure, Except.pure, Except.ok.injEq] at h
    have hshape : ∀ s ∈ segs,
        s.distance_km * 1000 = s.distance_nm * 1852 ∧
        s.coordinates.length = s.total_points ∧ 1 ≤ s.total_points :=
      mapLegs_mem _ (fun l s hl => great_circle_route_ok_shape coordsDb npts inv
        l.1 l.2 nppl s hl) _ segs hm
    have hsegs_ne : segs ≠ [] := by
      have hlegs : 1 ≤ (legsOf airports circular).length := by
        rcases airports with _ | ⟨a, rest⟩
        · simp at hlen
        · rcases rest with _ | ⟨b, rest2⟩
          · simp at hlen
          · simp only [legsOf]
            rcases circular with _ | _ <;> simp
      have := mapLegs_length _ _ _ hm
      intro hempty
      rw [hempty] at this
      simp at this
      omega
    subst h
    constructor
    · exact mergeLegCoords_length segs (fun r hr => (hshape r hr).2) hsegs_ne
    · have hmap : segs.map (fun s => s.distance_km * 1000) =
          segs.map (fun s => s.distance_nm * 1852) :=
        List.map_congr_left (fun s hs => (hshape s hs).1)
      simp only [foldl_distance_sum, zero_add, hmap, sum_map_nm_mul]
      field_simp

/-- A concrete three-airport database for exercising the route service. -/
def witnessCoordsDb (c : String) : Option (ℚ × ℚ) :=
  if c = "AAA" then some (0, 0)
  else if c = "BBB" then some (1, 1)
  else if c = "CCC" then some (2, 2)
  else none

/-- A concrete geodesic point sampler: n equally dull intermediate points. -/
def witnessNpts (a b : ℚ × ℚ) (n : ℕ) : List (ℚ × ℚ) :=
  List.replicate n (a.1 + b.1, a.2 + b.2)

/-- A concrete forward-distance function (meters). -/
def witnessInv (a b : ℚ × ℚ) : ℚ := (b.1 - a.1) * 1852

def c3Result : MultiLegRoute :=
  match calculate_multi_leg_route witnessCoordsDb witnessNpts witnessInv
      ["AAA", "BBB", "CCC"] false 3 with
  | Except.ok R => R
  | Except.error _ => default

/-- C3 witness: the point-count and distance-sum law applied to the
concrete two-leg route AAA→BBB→CCC. -/
theorem multi_leg_route_witness :
    c3Result.total_points = (c3Result.segments.map GCRoute.total_points).sum -
      (c3Result.segments.length - 1) ∧
    c3Result.distance_nm = (c3Result.segments.map GCRoute.distance_nm).sum :=
  multi_leg_route_points_and_distance witnessCoordsDb witnessNpts witnessInv
    ["AAA", "BBB", "CCC"] false 3 c3Result (by decide) (by rfl)

theorem nearest_fold_mem (dist : ℚ × ℚ → ℚ × ℚ → ℚ) (p : ℚ × ℚ) :
    ∀ (db : List (String × (ℚ × ℚ))) (acc : Option ℚ × String),
      (db.foldl (nearest_fold_step dist p) acc).2 = acc.2 ∨
      (db.foldl (nearest_fold_step dist p) acc).2 ∈ db.map Prod.fst := by
  intro db
  induction db with
  | nil => intro acc; left; rfl
  | cons a rest ih =>
    intro acc
    have hstep : (nearest_fold_step dist p acc a).2 = acc.2 ∨
        (nearest_fold_step dist p acc a).2 = a.1 := by
      unfold nearest_fold_step
      rcases acc.1 with _ | m
      · right; rfl
      · simp only
        split_ifs
        · right; rfl
        · left; rfl
    rcases ih (nearest_fold_step dist p acc a) with h | h
    · rw [List.foldl_cons]
      rcases hstep with h2 | h2
      · left; rw [h, h2]
      · right; rw [h, h2]; simp
    · right
      rw [List.foldl_cons]
      simp only [List.map_cons, List.mem_cons]
      right
      exact h

theorem tracker_fold_min_large (dist : ℚ × ℚ → ℚ × ℚ → ℚ) (p : ℚ × ℚ) :
    ∀ (db : List (String × (ℚ × ℚ))) (acc : Option ℚ × Option String),
      (∀ q ∈ db, 500 ≤ dist p q.2) →
      (acc.1 = none ∨ ∃ m, acc.1 = some m ∧ 500 ≤ m) →
      ((db.foldl (tracker_fold_step dist p) acc).1 = none ∨
        ∃ m, (db.foldl (tracker_fold_step dist p) acc).1 = some m ∧ 500 ≤ m) := by
  intro db
  induction db with
  | nil => intro acc _ hacc; exact hacc
  | cons a rest ih =>
    intro acc hall hacc
    rw [List.foldl_cons]
    refine ih (tracker_fold_step dist p acc a)
      (fun q hq => hall q (List.mem_cons_of_mem a hq)) ?_
    have hda : 500 ≤ dist p a.2 := hall a (List.mem_cons_self a rest)
    unfold tracker_fold_step
    rcases hacc with h | ⟨m, hm, hm5⟩
    · rw [h]
      right
      exact ⟨dist p a.2, rfl, hda⟩
    · rw [hm]
      simp only
      split_ifs
      · right; exact ⟨dist p a.2, rfl, hda⟩
      · right; exact ⟨m, hm, hm5⟩

/-- C4, amended.  The route weather analyzer's `find_nearest_airport` has
no distance cap: for every distance function, database and point it
returns either an airport of the database or the hard-coded initial
`'KJFK'` (the empty-database case) — a sampled point is never "unserved",
no matter how far every airport is.  The 500 km cap exists only in
`RealTimeFlightTracker._find_nearest_airport`, which returns `None`
whenever no airport of its table lies strictly within 500 km. -/
theorem find_nearest_airport_no_cap (dist : ℚ × ℚ → ℚ × ℚ → ℚ)
    (db : List (String × (ℚ × ℚ))) (p : ℚ × ℚ) :
    (find_nearest_airport dist db p = "KJFK" ∨
      find_nearest_airport dist db p ∈ db.map Prod.fst) ∧
    ((∀ q ∈ db, 500 ≤ dist p q.2) →
      tracker_find_nearest_airport dist db p = none) := by
  constructor
  · exact nearest_fold_mem dist p db (none, "KJFK")
  · intro hall
    unfold tracker_find_nearest_airport
    rcases tracker_fold_min_large dist p db (none, none) hall (Or.inl rfl) with h | ⟨m, hm, hm5⟩
    · simp [h]
    · simp only [hm]
      rw [if_neg (by linarith)]

/-- C4, counterexample.  A route point whose only known airport is 600 km
away — beyond the claimed ~500 km cap — is still resolved to that airport
by `find_nearest_airport` (and a point with an empty database resolves to
the default `'KJFK'`); it is never treated as unserved. -/
theorem find_nearest_airport_cap_fail :
    (500 : ℚ) < 600 ∧
    find_nearest_airport (fun _ _ => 600)
      [("KLAX", (339425 / 10000, -1184081 / 10000))] (0, 0) = "KLAX" ∧
    find_nearest_airport (fun _ _ => 600) [] (0, 0) = "KJFK" := by
  refine ⟨by norm_num, by rfl, by rfl⟩

/-- C4 witness: the amended cap statement applied to the concrete
one-airport table at distance 600. -/
theorem find_nearest_airport_no_cap_witness :
    tracker_find_nearest_airport (fun _ _ => 600)
      [("KLAX", (339425 / 10000, -1184081 / 10000))] (0, 0) = none :=
  (find_nearest_airport_no_cap (fun _ _ => 600)
      [("KLAX", (339425 / 10000, -1184081 / 10000))] (0, 0)).2
    (fun q _ => by norm_num)

/-- C5, amended.  The route service's computations raise a caller-visible
`ValueError` naming the unknown code ("Origin/Destination airport X not
found") and never substitute default coordinates; but
`ultimate_aviation_system`'s `_get_airport_info` silently returns the
default coordinates (40, -100) for a code absent from both its database
and its fallback table, and `_estimate_flight_parameters` — a route-level
distance computation — consumes those coordinates and returns a distance
without any error. -/
theorem unknown_airport_route_behavior :
    (∀ (coordsDb : String → Option (ℚ × ℚ)) npts inv (o d : String) (n : ℕ),
      coordsDb o = none →
      calculate_great_circle_route coordsDb npts inv o d n =
        Except.error ("Origin airport " ++ o ++ " not found")) ∧
    (∀ (coordsDb : String → Option (ℚ × ℚ)) npts inv (o d : String) (n : ℕ)
      (c : ℚ × ℚ), coordsDb o = some c → coordsDb d = none →
      calculate_great_circle_route coordsDb npts inv o d n =
        Except.error ("Destination airport " ++ d ++ " not found")) ∧
    (∀ (db : List (String × UAirport)) (code : String),
      db.find? (fun p => p.1 = code) = none → ult_fallback_coords code = none →
      ult_get_airport_info db code = ⟨40, -100, none⟩) ∧
    (∀ (db : List (String × UAirport)) (gcDist : ℚ → ℚ → ℚ → ℚ → ℚ)
      (dep arr : String),
      (estimate_flight_parameters db gcDist dep arr).distance_nm =
        pyRound 0 (gcDist (ult_get_airport_info db dep).latitude_deg
          (ult_get_airport_info db dep).longitude_deg
          (ult_get_airport_info db arr).latitude_deg
          (ult_get_airport_info db arr).longitude_deg)) := by
  refine ⟨?_, ?_, ?_, ?_⟩
  · intro coordsDb npts inv o d n ho
    simp [calculate_great_circle_route, ho, except_bind_error]
  · intro coordsDb npts inv o d n c ho hd
    simp [calculate_great_circle_route, ho, hd, except_bind_ok, except_bind_error]
  · intro db code hdb hfb
    simp [ult_get_airport_info, hdb, hfb]
  · intro db gcDist dep arr
    rfl

/-- A probe distance function returning an encoding of its first
(departure) coordinate pair, so the output pins down exactly which
coordinates the estimator consumed. -/
def gcProbe (lat1 lon1 : ℚ) (_ : ℚ) (_ : ℚ) : ℚ := lat1 * 1000 + lon1

/-- C5, counterexample.  For the unknown code "ZZZZ" the
route-level flight-parameter estimation of `ultimate_aviation_system`
does not raise: `_get_airport_info` silently yields the default (40,-100)
and the estimator returns a distance computed from those coordinates
(the probe encodes them as 40·1000 + (−100) = 39900). -/
theorem unknown_airport_silent_default :
    ult_get_airport_info [] "ZZZZ" = ⟨40, -100, none⟩ ∧
    (estimate_flight_parameters [] gcProbe "ZZZZ" "KJFK").distance_nm =
      pyRound 0 ((40 : ℚ) * 1000 + -100) := by
  constructor
  · rfl
  · rfl

/-- C5 witness: the amended statement applied to the concrete unknown
origin "ZZZZ" against a database that only knows "KJFK". -/
theorem unknown_airport_route_behavior_witness :
    calculate_great_circle_route
        (fun c => if c = "KJFK" then some ((0 : ℚ), (0 : ℚ)) else none)
        witnessNpts witnessInv "ZZZZ" "KJFK" 100 =
      Except.error ("Origin airport " ++ "ZZZZ" ++ " not found") :=
  unknown_airport_route_behavior.1
    (fun c => if c = "KJFK" then some ((0 : ℚ), (0 : ℚ)) else none)
    witnessNpts witnessInv "ZZZZ" "KJFK" 100 (by rfl)

/-- C7: for every airport code and every combination of adapter outcomes,
the aggregated snapshot has non-null temperature, visibility and pressure
and a non-empty sources list; and when the primary METAR source fails the
synthesized fallback observation is substituted, the `FALLBACK_METAR` tag
appears in `sources`, and the flight category is "VFR" (the fallback never
synthesizes another category). -/
theorem aggregator_snapshot_invariants (db : List (String × UAirport))
    (code : String) (metarOut : Option ParsedMetar)
    (tafOk pirepOk sigmetOk histAvailable mlNonempty : Bool) :
    (get_multi_source_weather db metarOut tafOk pirepOk sigmetOk
        histAvailable mlNonempty code).temperature_celsius.isSome = true ∧
    (get_multi_source_weather db metarOut tafOk pirepOk sigmetOk
        histAvailable mlNonempty code).visibility_statute_miles.isSome = true ∧
    (get_multi_source_weather db metarOut tafOk pirepOk sigmetOk
        histAvailable mlNonempty code).barometric_pressure_inhg.isSome = true ∧
    (get_multi_source_weather db metarOut tafOk pirepOk sigmetOk
        histAvailable mlNonempty code).sources ≠ [] ∧
    (metarOut = none →
      "FALLBACK_METAR" ∈ (get_multi_source_weather db metarOut tafOk pirepOk
        sigmetOk histAvailable mlNonempty code).sources ∧
      (get_multi_source_weather db metarOut tafOk pirepOk sigmetOk
        histAvailable mlNonempty code).flight_category = some "VFR") := by
  rcases metarOut with _ | p <;>
    simp [get_multi_source_weather, get_fallback_weather_data]

/-- C7 witness: the invariants evaluated for "KXXX" (an airport unknown to
the database, hence at the default coordinates (40, -100)) with every
upstream source failed. -/
theorem aggregator_snapshot_invariants_witness :
    (get_multi_source_weather [] none false false false false false
        "KXXX").temperature_celsius.isSome = true ∧
    "FALLBACK_METAR" ∈ (get_multi_source_weather [] none false false false
        false false "KXXX").sources ∧
    (get_multi_source_weather [] none false false false false false
        "KXXX").flight_category = some "VFR" := by
  have h := aggregator_snapshot_invariants [] "KXXX" none false false false false false
  exact ⟨h.1, (h.2.2.2.2 rfl).1, (h.2.2.2.2 rfl).2⟩

theorem finalize_classification (st : RAState) :
    ((finalize_route_analysis st).overall_conditions = "FAVORABLE" ↔
      st.hazards.length = 0) ∧
    ((finalize_route_analysis st).overall_conditions = "CAUTION" ↔
      (1 ≤ st.hazards.length ∧ st.hazards.length ≤ 2)) ∧
    ((finalize_route_analysis st).overall_conditions = "HAZARDOUS" ↔
      2 < st.hazards.length) ∧
    (st.icing_areas ≠ [] →
      (finalize_route_analysis st).recommended_altitude = "FL410") ∧
    (st.icing_areas = [] → st.turbulence_areas ≠ [] →
      (finalize_route_analysis st).recommended_altitude = "FL320") ∧
    (st.icing_areas = [] → st.turbulence_areas = [] →
      (finalize_route_analysis st).recommended_altitude = "FL350") := by
  unfold finalize_route_analysis
  simp only
  refine ⟨?_, ?_, ?_, ?_, ?_, ?_⟩
  · split_ifs with h0 h2
    · simp [h0]
    · constructor
      · intro hc; exact absurd hc (by decide)
      · intro hlen; exact absurd hlen h0
    · constructor
      · intro hc; exact absurd hc (by decide)
      · intro hlen; exact absurd hlen h0
  · split_ifs with h0 h2
    · constructor
      · intro hc; exact absurd hc (by decide)
      · intro h; omega
    · simp only [true_iff]
      omega
    · constructor
      · intro hc; exact absurd hc (by decide)
      · intro h; omega
  · split_ifs with h0 h2
    · constructor
      · intro hc; exact absurd hc (by decide)
      · intro h; omega
    · constructor
      · intro hc; exact absurd hc (by decide)
      · intro h; omega
    · simp only [true_iff]
      omega
  · intro hi
    rw [if_pos hi]
  · intro hi ht
    rw [if_neg (by simp [hi]), if_pos ht]
  · intro hi ht
    rw [if_neg (by simp [hi]), if_neg (by simp [ht])]

/-- C8: every successful route analysis is classified exactly by its
hazard count — FAVORABLE for 0, CAUTION for 1-2, HAZARDOUS for more — and
its recommended altitude is FL410 when icing areas exist, FL320 when
turbulence areas exist without icing, and FL350 otherwise. -/
theorem route_analysis_classification (dist : ℚ × ℚ → ℚ × ℚ → ℚ)
    (coordDb airDb : List (String × (ℚ × ℚ))) (wx : String → RouteWx)
    (dep arr : String) (R : RouteAnalysis)
    (h : analyze_route_weather dist coordDb airDb wx dep arr = some R) :
    (R.overall_conditions = "FAVORABLE" ↔ R.weather_hazards.length = 0) ∧
    (R.overall_conditions = "CAUTION" ↔
      (1 ≤ R.weather_hazards.length ∧ R.weather_hazards.length ≤ 2)) ∧
    (R.overall_conditions = "HAZARDOUS" ↔ 2 < R.weather_hazards.length) ∧
    (R.icing_areas ≠ [] → R.recommended_altitude = "FL410") ∧
    (R.icing_areas = [] → R.turbulence_areas ≠ [] →
      R.recommended_altitude = "FL320") ∧
    (R.icing_areas = [] → R.turbulence_areas = [] →
      R.recommended_altitude = "FL350") := by
  unfold analyze_route_weather at h
  rw [Option.map_eq_some'] at h
  obtain ⟨st, _, hR⟩ := h
  subst hR
  have hfin := finalize_classification st
  have hhaz : (finalize_route_analysis st).weather_hazards = st.hazards := rfl
  have hic : (finalize_route_analysis st).icing_areas = st.icing_areas := rfl
  have htu : (finalize_route_analysis st).turbulence_areas = st.turbulence_areas := rfl
  rw [hhaz, hic, htu]
  exact hfin

/-- Benign constant weather for exercising the analyzer. -/
def benignWx (_ : String) : RouteWx :=
  { visibility_statute_miles := 10
    wind_speed_knots := 0
    temperature_celsius := 10
    dewpoint_depression := 10 }

def c8Result : RouteAnalysis :=
  match analyze_route_weather (fun _ _ => 0) [] [("KJFK", (0, 0))] benignWx
      "KJFK" "KLAX" with
  | some R => R
  | none => default

/-- C8 witness: the classification law applied to a concrete analysis run
over eleven benign waypoints. -/
theorem route_analysis_classification_witness :
    (c8Result.overall_conditions = "FAVORABLE" ↔
      c8Result.weather_hazards.length = 0) ∧
    (c8Result.icing_areas = [] → c8Result.turbulence_areas = [] →
      c8Result.recommended_altitude = "FL350") :=
  have h := route_analysis_classification (fun _ _ => 0) [] [("KJFK", (0, 0))]
    benignWx "KJFK" "KLAX" c8Result (by rfl)
  ⟨h.1, h.2.2.2.2.2⟩
